import Mathlib

/-!
Verification of `pympress/util.py`: resource-path resolution, icon listing
and loading, screensaver control (`set_screensaver`), and the debounced
`FileWatcher` class.  Python functions are shallowly embedded as Lean
functions; OS effects (shell commands, registry access, GLib timers,
watchdog observers) are made explicit as state and action traces.
-/

namespace PympressUtil

/-! ### Path-string helpers (models of `os.path` functions) -/

/-- Index of the last occurrence of `c` in `cs` (model of Python `str.rfind`,
returning `none` instead of `-1`). -/
def rfindIdx (cs : List Char) (c : Char) : Option Nat :=
  (cs.enum).foldl (fun acc p => if p.2 = c then some p.1 else acc) none

/-- Model of `posixpath.dirname`: everything before the last `/`, with
trailing slashes stripped unless the head is all slashes. -/
def dirname (p : String) : String :=
  let cs := p.toList
  let i : Nat := match rfindIdx cs '/' with
    | some j => j + 1
    | none => 0
  let head := cs.take i
  if head ≠ [] ∧ ¬ head.all (· = '/') then
    ⟨(head.reverse.dropWhile (· = '/')).reverse⟩
  else
    ⟨head⟩

/-- Model of `posixpath.splitext`: split at the last dot of the final path
component, unless the component's leading characters up to that dot are all
dots (so `".png"` has no extension). -/
def splitext (s : String) : String × String :=
  let cs := s.toList
  let sepIdx := rfindIdx cs '/'
  match rfindIdx cs '.' with
  | none => (s, "")
  | some d =>
    let fStart : Nat := match sepIdx with
      | none => 0
      | some si => si + 1
    let dotGtSep : Bool := match sepIdx with
      | none => true
      | some si => decide (si < d)
    if dotGtSep ∧ ((cs.drop fStart).take (d - fStart)).any (· ≠ '.') then
      (⟨cs.take d⟩, ⟨cs.drop d⟩)
    else
      (s, "")

/-- Model of Python `str.lower` (ASCII, which is all these file names use). -/
def lowerStr (s : String) : String :=
  ⟨s.toList.map Char.toLower⟩

/-! ### Resource path resolution (`__get_resource_path` and friends) -/

/-- The environment `__get_resource_path` consults: whether the app runs as a
frozen executable, the directory of `sys.executable`, and the location that
`pkg_resources` resolves the `pympress` requirement to. -/
structure ResourceEnv where
  frozen : Bool
  executableDir : String
  siteDir : String
  deriving Repr, DecidableEq

/-- Model of `os.path.join(base, *parts)` for relative parts. -/
def joinPath (base : String) (parts : List String) : String :=
  parts.foldl (fun acc p => acc ++ "/" ++ p) base

/-- `__get_resource_path(*path_parts)`: frozen mode roots the path at the
executable's directory; otherwise `pkg_resources.resource_filename` resolves
`'pympress/' + '/'.join(path_parts)` under the installed distribution. -/
def getResourcePath (env : ResourceEnv) (path_parts : List String) : String :=
  if env.frozen then
    joinPath env.executableDir path_parts
  else
    env.siteDir ++ "/" ++ String.intercalate "/" ("pympress" :: path_parts)

/-- `get_ui_resource_file(name)` returns `__get_resource_path('share', 'xml', name + '.glade')`. -/
def get_ui_resource_file (env : ResourceEnv) (name : String) : String :=
  getResourcePath env ["share", "xml", name ++ ".glade"]

/-! ### Icon listing and loading -/

/-- `list_icons()`: filter the pixmaps directory listing down to names whose
`splitext` extension lowercases to `.png` and whose first 9 characters are
`pympress-`. -/
def list_icons (entries : List String) : List String :=
  entries.filter (fun i => lowerStr (splitext i).2 == ".png" && i.take 9 == "pympress-")

/-- One iteration of the `load_icons` loop: `get_icon_pixbuf` either yields a
pixbuf, which is appended to the accumulated icons, or raises, which is
caught and logged as `Error loading icons`. -/
def load_icons_step (loader : String → Except Unit β)
    (acc : List β × List String) (icon_name : String) : List β × List String :=
  match loader icon_name with
  | .ok icon_pixbuf => (acc.1 ++ [icon_pixbuf], acc.2)
  | .error _ => (acc.1, acc.2 ++ ["Error loading icons"])

/-- `load_icons()`: try to load each listed icon; a load failure is logged
(`logger.exception('Error loading icons')`) and the icon skipped.  Returns the
loaded icons and the log messages. -/
def load_icons (entries : List String) (loader : String → Except Unit β) :
    List β × List String :=
  (list_icons entries).foldl (load_icons_step loader) ([], [])

/-! ### `set_screensaver` -/

/-- Host platform, per the module-level `IS_MAC_OS` / `IS_POSIX` / `IS_WINDOWS`
constants (checked in that order inside `set_screensaver`). -/
inductive Platform
  | macOS
  | posix
  | windows
  | other
  deriving Repr, DecidableEq

/-- The value of the class-level `set_screensaver.dpms_was_enabled` attribute.
It starts as `None`; POSIX and Windows store a `bool`; macOS stores a
`subprocess.Popen` handle, modelled by its `poll()` result (`none` while the
process runs, an exit code once terminated). -/
inductive Dpms
  | none
  | bool (b : Bool)
  | proc (ret : Option Int)
  deriving Repr, DecidableEq

/-- Python truthiness of `dpms_was_enabled` (`None` and `False` falsy, a
`Popen` object truthy). -/
def Dpms.truthy : Dpms → Bool
  | .none => false
  | .bool b => b
  | .proc _ => true

/-- Python truthiness of `dpms_was_enabled.poll()` (`None` falsy; an exit code
truthy iff nonzero). -/
def Dpms.pollTruthy : Dpms → Bool
  | .proc (some r) => decide (r ≠ 0)
  | _ => false

/-- An OS-mutating or OS-observing call issued by `set_screensaver`, one
constructor per call site. -/
inductive OSAction
  | xdgScreensaver (cmd : String) (xid : Nat)
  | popenXsetQ
  | xsetDpms (enable : Bool)
  | spawnCaffeinate
  | killProc
  | regQuery (name : String)
  | regSet (name : String) (value : String)
  deriving Repr, DecidableEq

/-- The mocked OS state `set_screensaver` observes: what `xset q` reports,
the `ScreenSaveActive` registry value, whether the registry key opens, and the
shell exit statuses (which only influence log messages). -/
structure OSEnv where
  dpmsReportedEnabled : Bool
  screenSaveActive : String
  regAccessible : Bool
  xdgStatus : Nat
  xsetStatus : Nat
  deriving Repr, DecidableEq

/-- Result of one `set_screensaver` call: the new `dpms_was_enabled` value,
the OS calls issued (in order), and the warnings logged. -/
structure SSResult where
  state : Dpms
  actions : List OSAction
  logged : List String
  deriving Repr, DecidableEq

/-- `set_screensaver(must_disable, window)`, with the OS behind mocked by
`env` and the window's X id by `xid`. -/
def set_screensaver (plat : Platform) (env : OSEnv) (must_disable : Bool)
    (xid : Nat) (st : Dpms) : SSResult :=
  match plat with
  | .macOS =>
    if must_disable then
      if st = .none ∨ st.pollTruthy then
        ⟨.proc Option.none, [.spawnCaffeinate], []⟩
      else
        ⟨st, [], []⟩
    else
      if st.truthy ∧ ¬ st.pollTruthy then
        ⟨.none, [.killProc], []⟩
      else
        ⟨st, [], []⟩
  | .posix =>
    let cmd := if must_disable then "suspend" else "resume"
    let acts := [OSAction.xdgScreensaver cmd xid]
    let logs := if env.xdgStatus ≠ 0 then
        ["Could not set screensaver status: got status " ++ toString env.xdgStatus]
      else []
    if must_disable then
      let acts := acts ++ [.popenXsetQ]
      let dpms_status := if env.dpmsReportedEnabled then "Enabled" else "Disabled"
      if dpms_status = "Enabled" then
        ⟨.bool true, acts ++ [.xsetDpms false],
          logs ++ (if env.xsetStatus ≠ 0 then
            ["Could not disable DPMS screen blanking: got status " ++ toString env.xsetStatus]
          else [])⟩
      else
        ⟨.bool false, acts, logs⟩
    else
      if st.truthy then
        ⟨st, acts ++ [.xsetDpms true],
          logs ++ (if env.xsetStatus ≠ 0 then
            ["Could not enable DPMS screen blanking: got status " ++ toString env.xsetStatus]
          else [])⟩
      else
        ⟨st, acts, logs⟩
  | .windows =>
    if env.regAccessible then
      if must_disable then
        let value := env.screenSaveActive
        let st' := Dpms.bool (value = "1")
        if value = "1" then
          ⟨st', [.regQuery "ScreenSaveActive", .regSet "ScreenSaveActive" "0"], []⟩
        else
          ⟨st', [.regQuery "ScreenSaveActive"], []⟩
      else
        if st.truthy then
          ⟨st, [.regSet "ScreenSaveActive" "1"], []⟩
        else
          ⟨st, [], []⟩
    else
      ⟨st, [], ["access denied when trying to access screen saver settings in registry!"]⟩
  | .other =>
    ⟨st, [], ["Unsupported OS: can't enable/disable screensaver"]⟩

/-- Effect of one OS action on the mocked DPMS enabled/disabled state. -/
def applyDpmsAction (b : Bool) (a : OSAction) : Bool :=
  match a with
  | .xsetDpms e => e
  | _ => b

/-- Effect of one OS action on the mocked `ScreenSaveActive` registry value. -/
def applyRegAction (v : String) (a : OSAction) : String :=
  match a with
  | .regSet n val => if n = "ScreenSaveActive" then val else v
  | _ => v

/-- Effect of one OS action on the mocked "display sleep inhibited by a
caffeinate process" state. -/
def applyInhibitAction (i : Bool) (a : OSAction) : Bool :=
  match a with
  | .spawnCaffeinate => true
  | .killProc => false
  | _ => i

/-- Effect of one OS action on the mocked "screensaver suspended by
xdg-screensaver" state. -/
def applySuspendAction (s : Bool) (a : OSAction) : Bool :=
  match a with
  | .xdgScreensaver cmd _ => if cmd = "suspend" then true else if cmd = "resume" then false else s
  | _ => s

/-! ### `FileWatcher`

The class-level state of `FileWatcher` together with the GLib main loop's
pending single-shot timers and the watchdog observer's scheduled watches.
Callback bindings (`callback, *args, **kwargs`) are opaque to the watcher, so
they are modelled by a type parameter `α`. -/

structure WatcherState (α : Type) where
  /-- whether `cls.observer` (the watchdog thread) is alive -/
  alive : Bool
  /-- how many times `observer.start()` has been called -/
  startCount : Nat
  /-- directories currently scheduled on the observer -/
  scheduled : List String
  /-- the installed `monitor.on_modified` handler: the path it compares
  `evt.src_path` against, and the callback binding it closes over -/
  onModified : Option (String × α)
  /-- `cls.timeout`, the GLib source id of the pending debounce timer
  (`0` when none) -/
  timeout : Nat
  /-- the GLib main loop's pending timeout sources: `(source id, binding)` -/
  glibPending : List (Nat × α)
  /-- next GLib source id to hand out (GLib ids are positive) -/
  nextId : Nat
  /-- callback invocations performed so far, in order, with their bindings -/
  calls : List α
  /-- lines written to stdout by `print` -/
  printed : List String
  /-- messages sent through the `logging` facility -/
  logged : List String
  deriving Repr, DecidableEq

/-- The state at process start: observer built but not started, no handler
installed, no watch, no pending timer. -/
def initState (α : Type) : WatcherState α :=
  ⟨false, 0, [], Option.none, 0, [], 1, [], [], []⟩

/-- `GLib.Source.remove(id)`: drop the pending source with that id. -/
def glibSourceRemove (s : WatcherState α) (id : Nat) : WatcherState α :=
  { s with glibPending := s.glibPending.filter (fun p => p.1 ≠ id) }

/-- `FileWatcher.enqueue(callback, *args)`: cancel the pending timer if any,
then arm a fresh 200 ms single-shot timer bound to this call's arguments. -/
def enqueue (s : WatcherState α) (binding : α) : WatcherState α :=
  let s := if s.timeout ≠ 0 then glibSourceRemove s s.timeout else s
  { s with glibPending := s.glibPending ++ [(s.nextId, binding)],
           timeout := s.nextId,
           nextId := s.nextId + 1 }

/-- `FileWatcher.call(callback, *args)`: clear `cls.timeout` and invoke the
callback. -/
def call (s : WatcherState α) (binding : α) : WatcherState α :=
  let s := if s.timeout ≠ 0 then { s with timeout := 0 } else s
  { s with calls := s.calls ++ [binding] }

/-- The GLib timer with source id `id` expires: if it is still pending it is
removed (single-shot) and runs `FileWatcher.call` with its binding. -/
def fireTimer (s : WatcherState α) (id : Nat) : WatcherState α :=
  match s.glibPending.find? (fun p => p.1 = id) with
  | some pr => call { s with glibPending := s.glibPending.filter (fun p => p.1 ≠ id) } pr.2
  | none => s

/-- The debounce window expires with no further events: every pending GLib
timer fires. -/
def expireAll (s : WatcherState α) : WatcherState α :=
  s.glibPending.foldl (fun t p => fireTimer t p.1) s

/-- `FileWatcher.stop_watching()`: `observer.unschedule_all()`. -/
def stop_watching (s : WatcherState α) : WatcherState α :=
  { s with scheduled := [] }

/-- `FileWatcher.start_daemon()`: start the observer thread iff it is not
already alive. -/
def start_daemon (s : WatcherState α) : WatcherState α :=
  if s.alive then s else { s with alive := true, startCount := s.startCount + 1 }

/-- `FileWatcher.watch_file(path, callback, *args)`: start the daemon, drop
any previous watch, install the exact-path filter as `monitor.on_modified`,
and schedule the parent directory on the observer.  `dirOk` mocks whether
`observer.schedule` succeeds; on `OSError` the failure is printed (not
logged) and no watch is scheduled. -/
def watch_file (s : WatcherState α) (path : String) (binding : α) (dirOk : Bool) :
    WatcherState α :=
  let s := start_daemon s
  let s := stop_watching s
  let directory := dirname path
  let s := { s with onModified := some (path, binding) }
  if dirOk then
    { s with scheduled := s.scheduled ++ [directory] }
  else
    { s with printed := s.printed ++ ["Impossible to open dir at " ++ directory] }

/-- A file-system modification event on `srcPath` is delivered by the
observer: only if some scheduled directory contains `srcPath` does the
installed `on_modified` run, and it enqueues the debounced callback iff
`evt.src_path == path` character for character. -/
def deliverModified (s : WatcherState α) (srcPath : String) : WatcherState α :=
  if dirname srcPath ∈ s.scheduled then
    match s.onModified with
    | some pb => if srcPath = pb.1 then enqueue s pb.2 else s
    | none => s
  else
    s

/-- Invariant linking `cls.timeout` to the GLib pending sources: GLib ids are
positive, and at most the one source recorded in `cls.timeout` is pending. -/
def TimerInv (s : WatcherState α) : Prop :=
  0 < s.nextId ∧
  (s.glibPending = [] ∨ ∃ b, s.glibPending = [(s.timeout, b)] ∧ 0 < s.timeout)

/-! ### Helper lemmas -/

theorem deliverModified_no_sched {α : Type} (s : WatcherState α) (p : String)
    (h : s.scheduled = []) : deliverModified s p = s := by
  simp [deliverModified, h]

theorem foldl_deliver_no_sched {α : Type} (ps : List String) (s : WatcherState α)
    (h : s.scheduled = []) : ps.foldl deliverModified s = s := by
  induction ps with
  | nil => rfl
  | cons p ps ih => rw [List.foldl_cons, deliverModified_no_sched s p h, ih]

theorem enqueue_fields {α : Type} (s : WatcherState α) (b : α) :
    (enqueue s b).scheduled = s.scheduled ∧ (enqueue s b).onModified = s.onModified ∧
    (enqueue s b).calls = s.calls ∧ (enqueue s b).timeout = s.nextId ∧
    (enqueue s b).nextId = s.nextId + 1 := by
  unfold enqueue glibSourceRemove
  split <;> simp

theorem enqueue_glibPending {α : Type} (s : WatcherState α) (b : α) (h : TimerInv s) :
    (enqueue s b).glibPending = [(s.nextId, b)] := by
  obtain ⟨h1, h2 | ⟨c, hc, ht⟩⟩ := h
  · unfold enqueue glibSourceRemove
    split <;> simp [h2]
  · unfold enqueue glibSourceRemove
    rw [if_pos (Nat.pos_iff_ne_zero.mp ht)]
    simp [hc]

theorem enqueue_TimerInv {α : Type} (s : WatcherState α) (b : α) (h : TimerInv s) :
    TimerInv (enqueue s b) := by
  refine ⟨?_, Or.inr ⟨b, ?_, ?_⟩⟩
  · rw [(enqueue_fields s b).2.2.2.2]; omega
  · rw [enqueue_glibPending s b h, (enqueue_fields s b).2.2.2.1]
  · rw [(enqueue_fields s b).2.2.2.1]; exact h.1

theorem foldl_enqueue_spec {α : Type} (l : List α) :
    ∀ s : WatcherState α, TimerInv s →
      TimerInv (l.foldl enqueue s) ∧ (l.foldl enqueue s).calls = s.calls ∧
      (l.foldl enqueue s).scheduled = s.scheduled ∧
      (l.foldl enqueue s).onModified = s.onModified := by
  induction l with
  | nil => exact fun s h => ⟨h, rfl, rfl, rfl⟩
  | cons a l ih =>
    intro s h
    obtain ⟨i1, i2, i3, i4⟩ := ih (enqueue s a) (enqueue_TimerInv s a h)
    obtain ⟨e1, e2, e3, _, _⟩ := enqueue_fields s a
    exact ⟨by rw [List.foldl_cons]; exact i1,
           by rw [List.foldl_cons, i2, e3],
           by rw [List.foldl_cons, i3, e1],
           by rw [List.foldl_cons, i4, e2]⟩

theorem foldl_enqueue_last {α : Type} (l : List α) (b : α) (s : WatcherState α)
    (h : TimerInv s) :
    ∃ id, ((l ++ [b]).foldl enqueue s).glibPending = [(id, b)] ∧
      ((l ++ [b]).foldl enqueue s).calls = s.calls := by
  rw [List.foldl_append]
  obtain ⟨hInv, hcalls, _, _⟩ := foldl_enqueue_spec l s h
  refine ⟨(l.foldl enqueue s).nextId, ?_, ?_⟩
  · rw [List.foldl_cons, List.foldl_nil, enqueue_glibPending _ b hInv]
  · rw [List.foldl_cons, List.foldl_nil, (enqueue_fields _ b).2.2.1, hcalls]

theorem expire_single {α : Type} (s : WatcherState α) (id : Nat) (b : α)
    (hp : s.glibPending = [(id, b)]) :
    (expireAll s).calls = s.calls ++ [b] ∧ (expireAll s).glibPending = [] := by
  unfold expireAll
  rw [hp, List.foldl_cons, List.foldl_nil]
  unfold fireTimer
  rw [hp]
  simp only [List.find?_cons, List.filter_cons]
  simp [call]
  split <;> simp

theorem foldl_deliver_eq_enqueue {α : Type} (n : Nat) :
    ∀ (s : WatcherState α) (P : String) (b : α),
      s.onModified = some (P, b) → dirname P ∈ s.scheduled →
      (List.replicate n P).foldl deliverModified s
        = (List.replicate n b).foldl enqueue s := by
  induction n with
  | zero => intros; rfl
  | succ n ih =>
    intro s P b hm hs
    rw [List.replicate_succ, List.replicate_succ, List.foldl_cons, List.foldl_cons]
    have hd : deliverModified s P = enqueue s b := by
      simp [deliverModified, hs, hm]
    rw [hd]
    exact ih (enqueue s b) P b (by rw [(enqueue_fields s b).2.1]; exact hm)
      (by rw [(enqueue_fields s b).1]; exact hs)

theorem watch_file_fields {α : Type} (s : WatcherState α) (path : String) (b : α)
    (dirOk : Bool) :
    (watch_file s path b dirOk).onModified = some (path, b) ∧
    (watch_file s path b dirOk).scheduled = (if dirOk then [dirname path] else []) ∧
    (watch_file s path b dirOk).glibPending = s.glibPending ∧
    (watch_file s path b dirOk).timeout = s.timeout ∧
    (watch_file s path b dirOk).nextId = s.nextId ∧
    (watch_file s path b dirOk).calls = s.calls ∧
    (watch_file s path b dirOk).alive = true ∧
    (watch_file s path b dirOk).startCount
      = (if s.alive then s.startCount else s.startCount + 1) ∧
    (watch_file s path b dirOk).logged = s.logged := by
  unfold watch_file start_daemon stop_watching
  rcases dirOk <;> rcases hA : s.alive <;> simp [hA]

theorem deliver_matching_path {α : Type} (s : WatcherState α) (path : String) (b : α) :
    deliverModified (watch_file s path b true) path
      = enqueue (watch_file s path b true) b := by
  obtain ⟨f1, f2, _⟩ := watch_file_fields s path b true
  simp [deliverModified, f1, f2]

theorem deliver_other_path {α : Type} (s : WatcherState α) (path : String) (b : α)
    (dirOk : Bool) (q : String) (h : q ≠ path) :
    deliverModified (watch_file s path b dirOk) q = watch_file s path b dirOk := by
  obtain ⟨f1, f2, _⟩ := watch_file_fields s path b dirOk
  unfold deliverModified
  rw [f1, f2]
  split
  · simp [h]
  · rfl

theorem load_icons_loop {β : Type} (loader : String → Except Unit β) :
    ∀ (L : List String) (acc : List β × List String),
      L.foldl (load_icons_step loader) acc
      = (acc.1 ++ L.filterMap (fun n => (loader n).toOption),
         acc.2 ++ L.filterMap (fun n =>
           match loader n with
           | .ok _ => Option.none
           | .error _ => some "Error loading icons")) := by
  intro L
  induction L with
  | nil => intro acc; simp
  | cons n L ih =>
    intro acc
    rw [List.foldl_cons]
    rcases hn : loader n with e | p
    · simp [ih, load_icons_step, hn, Except.toOption, List.filterMap_cons]
    · simp [ih, load_icons_step, hn, Except.toOption, List.filterMap_cons]

/-! ### Claim theorems -/

/-- C1: for every watched path `P` and every sequence of `N ≥ 1` modification
events on `P` inside the debounce window, the callback is invoked exactly once
after the window expires (`calls` grows by exactly one element and no timer
stays pending), and the invocation carries the binding of the most recent
`enqueue` call (the last element of the enqueue sequence). -/
theorem debounce_exactly_once {α : Type} (s : WatcherState α) (P : String)
    (l : List α) (b : α) (n : Nat) (hInv : TimerInv s) :
    ((expireAll ((l ++ [b]).foldl enqueue s)).calls = s.calls ++ [b] ∧
      (expireAll ((l ++ [b]).foldl enqueue s)).glibPending = []) ∧
    (expireAll ((List.replicate (n + 1) P).foldl deliverModified
        (watch_file s P b true))).calls = s.calls ++ [b] := by
  constructor
  · obtain ⟨id, hpend, hcalls⟩ := foldl_enqueue_last l b s hInv
    obtain ⟨e1, e2⟩ := expire_single _ id b hpend
    exact ⟨by rw [e1, hcalls], e2⟩
  · obtain ⟨f1, f2, f3, f4, f5, f6, _⟩ := watch_file_fields s P b true
    have hInv1 : TimerInv (watch_file s P b true) := by
      unfold TimerInv
      rw [f3, f4, f5]
      exact hInv
    rw [foldl_deliver_eq_enqueue (n + 1) _ P b f1 (by rw [f2]; simp)]
    rw [List.replicate_succ']
    obtain ⟨id, hpend, hcalls⟩ := foldl_enqueue_last (List.replicate n b) b _ hInv1
    obtain ⟨e1, _⟩ := expire_single _ id b hpend
    rw [e1, hcalls, f6]

/-- Witness for C1 at a concrete input: two rapid `enqueue` calls with
bindings `5` then `7` produce, after expiry, exactly the single call `7`. -/
theorem debounce_exactly_once_witness :
    (expireAll ((([5, 7] : List Nat)).foldl enqueue (initState Nat))).calls = [7] := by
  have h := debounce_exactly_once (initState Nat) "d/f" [5] 7 0
    ⟨Nat.one_pos, Or.inl rfl⟩
  exact h.1.1

/-- C2 counterexample: with a debounce timer pending for the watched path
`d/f1` (binding `1`), neither `stop_watching` nor `watch_file` on a new path
`e/f2` cancels the pending GLib timer — it is still pending afterwards and its
`d/f1`-bound callback fires when it expires, contradicting the claim that no
callback bound to the old path fires after cancellation. -/
theorem stop_watching_pending_timer_fires :
    ((stop_watching (deliverModified (watch_file (initState Nat) "d/f1" 1 true)
          "d/f1")).glibPending = [(1, 1)] ∧
      (expireAll (stop_watching (deliverModified
          (watch_file (initState Nat) "d/f1" 1 true) "d/f1"))).calls = [1]) ∧
    ((watch_file (deliverModified (watch_file (initState Nat) "d/f1" 1 true) "d/f1")
          "e/f2" 2 true).glibPending = [(1, 1)] ∧
      (expireAll (watch_file (deliverModified
          (watch_file (initState Nat) "d/f1" 1 true) "d/f1") "e/f2" 2 true)).calls
        = [1]) := by
  exact ⟨⟨rfl, rfl⟩, ⟨rfl, rfl⟩⟩

/-- C2 amended: calling `watch_file` on a new path or `stop_watching` removes
the watch, so no subsequent modification event enqueues a callback for the old
path; but the pending debounce timer is left pending (not cancelled), and when
it expires its old-path-bound callback still fires exactly once. -/
theorem watch_switch_amended {α : Type} (s : WatcherState α) (P2 : String) (b2 : α)
    (dirOk : Bool) (P1 : String) (id : Nat) (b1 : α) :
    (stop_watching s).glibPending = s.glibPending ∧
    (watch_file s P2 b2 dirOk).glibPending = s.glibPending ∧
    (∀ ps : List String, (ps.foldl deliverModified (stop_watching s)).calls = s.calls) ∧
    (P1 ≠ P2 → deliverModified (watch_file s P2 b2 dirOk) P1 = watch_file s P2 b2 dirOk) ∧
    (s.glibPending = [(id, b1)] → (expireAll s).calls = s.calls ++ [b1]) := by
  refine ⟨rfl, (watch_file_fields s P2 b2 dirOk).2.2.1, ?_, ?_, ?_⟩
  · intro ps
    rw [foldl_deliver_no_sched ps (stop_watching s) rfl]
    rfl
  · intro hne
    exact deliver_other_path s P2 b2 dirOk P1 hne
  · intro hp
    exact (expire_single s id b1 hp).1

/-- Witness for C2's amended claim: an event on the old path after switching
to a new path in the same process is ignored, and a concretely pending timer
fires its bound callback once on expiry. -/
theorem watch_switch_amended_witness :
    deliverModified (watch_file (initState Nat) "d/f2" 2 true) "d/f1"
        = watch_file (initState Nat) "d/f2" 2 true ∧
    (expireAll { initState Nat with glibPending := [(1, 5)], timeout := 1 }).calls
        = [5] := by
  constructor
  · exact (watch_switch_amended (initState Nat) "d/f2" 2 true "d/f1" 1 5).2.2.2.1
      (by decide)
  · exact (watch_switch_amended
      { initState Nat with glibPending := [(1, 5)], timeout := 1 }
      "x" 0 true "y" 1 5).2.2.2.2 rfl

/-- C5: after `stop_watching` returns, modification events change nothing at
all — in particular no callback invocation is produced by any event delivered
after the watch was removed. -/
theorem stop_watching_ignores_events {α : Type} (s : WatcherState α)
    (ps : List String) :
    ps.foldl deliverModified (stop_watching s) = stop_watching s ∧
    (ps.foldl deliverModified (stop_watching s)).calls = s.calls := by
  have h := foldl_deliver_no_sched ps (stop_watching s) rfl
  exact ⟨h, by rw [h]; rfl⟩

/-- C6 counterexample: when `observer.schedule` raises `OSError`,
`watch_file` reports the failure with `print` on standard output — the
logging facility records nothing, contradicting the claim that the failure is
reported through the logging facility. -/
theorem watch_file_oserror_prints :
    (watch_file (initState Nat) "d/f" 0 false).scheduled = [] ∧
    (watch_file (initState Nat) "d/f" 0 false).printed
        = ["Impossible to open dir at d"] ∧
    (watch_file (initState Nat) "d/f" 0 false).logged = [] := by
  exact ⟨rfl, rfl, rfl⟩

/-- C6 amended: for every path whose parent directory is unschedulable, the
`OSError` is caught (the call returns normally in the model), no watch is
established, and the failure is reported by printing to standard output
rather than through the logging facility. -/
theorem watch_file_oserror_amended {α : Type} (s : WatcherState α) (path : String)
    (b : α) :
    (watch_file s path b false).scheduled = [] ∧
    (watch_file s path b false).printed
        = s.printed ++ ["Impossible to open dir at " ++ dirname path] ∧
    (watch_file s path b false).logged = s.logged := by
  unfold watch_file start_daemon stop_watching
  rcases hA : s.alive <;> simp [hA]

/-- C7: `watch_file(path, callback, args)` starts the observer thread iff it
was not running, cancels any previous watch (the scheduled set afterwards
holds only the parent directory of `path`, or nothing on failure), and the
installed filter enqueues the debounced callback exactly on events whose
source path equals `path` — events on any other path leave the state
untouched. -/
theorem watch_file_contract {α : Type} (s : WatcherState α) (path : String) (b : α)
    (dirOk : Bool) (q : String) :
    ((watch_file s path b dirOk).alive = true ∧
      (watch_file s path b dirOk).startCount
        = (if s.alive then s.startCount else s.startCount + 1)) ∧
    (watch_file s path b dirOk).scheduled = (if dirOk then [dirname path] else []) ∧
    (watch_file s path b dirOk).onModified = some (path, b) ∧
    (q = path → deliverModified (watch_file s path b true) q
        = enqueue (watch_file s path b true) b) ∧
    (q ≠ path → deliverModified (watch_file s path b dirOk) q
        = watch_file s path b dirOk) := by
  obtain ⟨f1, f2, _, _, _, _, f7, f8, _⟩ := watch_file_fields s path b dirOk
  refine ⟨⟨f7, f8⟩, f2, f1, ?_, ?_⟩
  · intro hq
    rw [hq]
    exact deliver_matching_path s path b
  · intro hq
    exact deliver_other_path s path b dirOk q hq

/-- Witness for C7 at a concrete input: an event on the exactly matching path
runs the debounced enqueue; an event on a sibling file in the same directory
does nothing. -/
theorem watch_file_contract_witness :
    deliverModified (watch_file (initState Nat) "d/f" 3 true) "d/f"
        = enqueue (watch_file (initState Nat) "d/f" 3 true) 3 ∧
    deliverModified (watch_file (initState Nat) "d/f" 3 true) "d/g"
        = watch_file (initState Nat) "d/f" 3 true := by
  constructor
  · exact (watch_file_contract (initState Nat) "d/f" 3 true "d/f").2.2.2.1 rfl
  · exact (watch_file_contract (initState Nat) "d/f" 3 true "d/g").2.2.2.2 (by decide)

/-- C3 counterexample: on POSIX, calling enable (`must_disable = False`) with
the recorded state still at its initial `None` is not free of OS mutation —
the code unconditionally shells out `xdg-screensaver resume`, a command that
changes screensaver state, contradicting "mutates no OS state on any
platform". -/
theorem enable_without_disable_shells_out :
    (set_screensaver .posix ⟨true, "1", true, 0, 0⟩ false 42 .none).actions
      = [.xdgScreensaver "resume" 42] := rfl

/-- C3 amended: calling enable with the recorded state still `None` leaves the
recorded state unchanged and issues no DPMS change, no registry write, no
process kill and no caffeinate spawn on any platform; on macOS, Windows and
unsupported platforms it issues no OS call at all, while on POSIX it still
issues exactly the unconditional `xdg-screensaver resume` shell command. -/
theorem enable_without_disable_amended (plat : Platform) (env : OSEnv) (xid : Nat) :
    (set_screensaver plat env false xid .none).state = .none ∧
    (set_screensaver plat env false xid .none).actions
      = (if plat = .posix then [.xdgScreensaver "resume" xid] else []) := by
  cases plat
  · exact ⟨rfl, rfl⟩
  · exact ⟨rfl, rfl⟩
  · unfold set_screensaver
    rcases hR : env.regAccessible <;> simp [hR, Dpms.truthy]
  · exact ⟨rfl, rfl⟩

/-- C4: a disable call followed by an enable call restores exactly the
OS configuration observed and recorded at disable time: folding the issued
OS calls over the mocked OS state returns it to its initial value — the DPMS
enabled flag and xdg-screensaver suspension on POSIX, the `ScreenSaveActive`
registry value on Windows, and the caffeinate display-sleep inhibition on
macOS. -/
theorem disable_enable_roundtrip (env : OSEnv) (xid : Nat) :
    (((set_screensaver .posix env true xid .none).actions
        ++ (set_screensaver .posix env false xid
              (set_screensaver .posix env true xid .none).state).actions).foldl
        applyDpmsAction env.dpmsReportedEnabled = env.dpmsReportedEnabled ∧
      ((set_screensaver .posix env true xid .none).actions
        ++ (set_screensaver .posix env false xid
              (set_screensaver .posix env true xid .none).state).actions).foldl
        applySuspendAction false = false) ∧
    ((set_screensaver .windows env true xid .none).actions
        ++ (set_screensaver .windows env false xid
              (set_screensaver .windows env true xid .none).state).actions).foldl
        applyRegAction env.screenSaveActive = env.screenSaveActive ∧
    ((set_screensaver .macOS env true xid .none).actions
        ++ (set_screensaver .macOS env false xid
              (set_screensaver .macOS env true xid .none).state).actions).foldl
        applyInhibitAction false = false := by
  refine ⟨⟨?_, ?_⟩, ?_, ?_⟩
  · rcases hD : env.dpmsReportedEnabled <;>
      simp [set_screensaver, hD, Dpms.truthy, applyDpmsAction]
  · rcases hD : env.dpmsReportedEnabled <;>
      simp [set_screensaver, hD, Dpms.truthy, applyDpmsAction, applySuspendAction]
  · rcases hR : env.regAccessible
    · simp [set_screensaver, hR, Dpms.truthy]
    · rcases hV : decide (env.screenSaveActive = "1") <;>
        simp at hV <;>
        simp [set_screensaver, hR, hV, Dpms.truthy, applyRegAction]
  · simp [set_screensaver, Dpms.truthy, Dpms.pollTruthy, applyInhibitAction]

/-- C8: `get_ui_resource_file(name)` returns a path ending in
`share/xml/<name>.glade` in both modes; the frozen branch roots it at the
executable's directory and the non-frozen branch under the installed
`pympress` package. -/
theorem get_ui_resource_file_spec (env : ResourceEnv) (name : String) :
    get_ui_resource_file env name
      = (if env.frozen then env.executableDir ++ "/"
         else env.siteDir ++ "/pympress/")
          ++ ("share/xml/" ++ (name ++ ".glade")) ∧
    ∃ root, get_ui_resource_file env name
      = root ++ ("share/xml/" ++ (name ++ ".glade")) := by
  have main : get_ui_resource_file env name
      = (if env.frozen then env.executableDir ++ "/"
         else env.siteDir ++ "/pympress/")
          ++ ("share/xml/" ++ (name ++ ".glade")) := by
    unfold get_ui_resource_file getResourcePath
    rcases hF : env.frozen
    · rw [if_neg (fun h => Bool.noConfusion h), if_neg (fun h => Bool.noConfusion h)]
      show env.siteDir ++ "/"
            ++ ("pympress" ++ "/" ++ ("share" ++ "/" ++ ("xml" ++ "/"
                ++ (name ++ ".glade"))))
          = env.siteDir ++ "/pympress/" ++ ("share/xml/" ++ (name ++ ".glade"))
      simp only [String.append_assoc]
      rw [show ("/" : String) ++ ("pympress" ++ ("/" ++ ("share" ++ ("/"
            ++ ("xml" ++ ("/" ++ (name ++ ".glade")))))))
          = ("/" ++ ("pympress" ++ ("/" ++ ("share" ++ ("/" ++ ("xml" ++ "/"))))))
            ++ (name ++ ".glade") from by simp only [String.append_assoc]]
      rfl
    · rw [if_pos rfl, if_pos rfl]
      show env.executableDir ++ "/" ++ "share" ++ "/" ++ "xml" ++ "/"
            ++ (name ++ ".glade")
          = env.executableDir ++ "/" ++ ("share/xml/" ++ (name ++ ".glade"))
      simp only [String.append_assoc]
      rw [show ("share" : String) ++ ("/" ++ ("xml" ++ ("/" ++ (name ++ ".glade"))))
          = ("share" ++ ("/" ++ ("xml" ++ "/"))) ++ (name ++ ".glade") from by
        simp only [String.append_assoc]]
      rfl
  exact ⟨main, ⟨_, main⟩⟩

/-- C9: every name returned by `list_icons` has extension `.png` compared
case-insensitively and the 9-character prefix `pympress-`; every input entry
satisfying both conditions is in the output; and the output preserves the
input order (it is a sublist of the input). -/
theorem list_icons_spec (entries : List String) :
    (∀ i ∈ list_icons entries,
        lowerStr (splitext i).2 = ".png" ∧ i.take 9 = "pympress-") ∧
    (∀ i ∈ entries,
        lowerStr (splitext i).2 = ".png" → i.take 9 = "pympress-" →
        i ∈ list_icons entries) ∧
    (list_icons entries).Sublist entries := by
  refine ⟨?_, ?_, ?_⟩
  · intro i hi
    rw [list_icons, List.mem_filter] at hi
    have h2 := hi.2
    simp only [Bool.and_eq_true, beq_iff_eq] at h2
    exact h2
  · intro i hi h1 h2
    rw [list_icons, List.mem_filter]
    exact ⟨hi, by simp [h1, h2]⟩
  · exact List.filter_sublist _

/-- Witness for C9 at a concrete input: the qualifying name is kept (with a
mixed-case extension) and its properties hold; the non-qualifying name is
dropped. -/
theorem list_icons_spec_witness :
    "pympress-a.PNG" ∈ list_icons ["pympress-a.PNG", "note.txt"] ∧
    list_icons ["pympress-a.PNG", "note.txt"] = ["pympress-a.PNG"] := by
  constructor
  · exact (list_icons_spec ["pympress-a.PNG", "note.txt"]).2.1 "pympress-a.PNG"
      (by simp) (by decide) (by decide)
  · rfl

/-- C10: `load_icons` never propagates a load failure: for every behaviour of
the individual icon loader, the returned list is exactly the successfully
loaded icons in listing order, and each failing icon contributes exactly one
log message instead. -/
theorem load_icons_spec {β : Type} (entries : List String)
    (loader : String → Except Unit β) :
    (load_icons entries loader).1
        = (list_icons entries).filterMap (fun n => (loader n).toOption) ∧
    (load_icons entries loader).2
        = (list_icons entries).filterMap (fun n =>
            match loader n with
            | .ok _ => Option.none
            | .error _ => some "Error loading icons") := by
  unfold load_icons
  rw [load_icons_loop]
  simp

end PympressUtil
